import Mathlib

/-!
Shallow embedding of the Mixnet Bridge from `src/mixnet.rs` of
rust-libp2p-nym.

The bridge turns one websocket connection into two channels: the handshake
(`get_self_address`) discovers the bridge's own `Recipient` address, and a
spawned relay loop races `check_inbound` against `check_outbound` forever.

Modelling choices:
- The websocket read half is a list of `Except String WsMessage`: the
  complete future history of `ws_stream.next()` results (an `Except.error`
  is a stream-level tungstenite error; the empty list means the stream
  yields no more frames).
- The write half is a list of frames written so far plus a `sinkFails`
  flag standing for the environment making `sink.send` fail.
- The tokio unbounded channels are lists plus a closed flag: a closed
  outbound channel with an empty queue makes `recv()` return `None`; a
  closed inbound channel makes `send` fail.
- External library functions (`ServerResponse::deserialize`,
  `ClientRequest::serialize`, and the crate-level `parse_message_data` /
  `Message::to_bytes` from `src/message.rs`) are parameters bundled in a
  `Codec`: the theorems hold for every choice of these functions, so they
  depend only on the control flow of `mixnet.rs`.
- `debug!` reporting is modelled by the relay loop body appending each
  iteration's `Result` to a `log` field.
- The Rust `loop { select! { ... } }` has no `break`: the loop body below
  returns a `LoopControl` value, and because the source contains no break
  it is constantly `LoopControl.cont`. `relay_run` iterates the body over
  a list of race outcomes (`true` = the inbound future won the race).
-/

deriving instance DecidableEq for Except

/-- Opaque routable address (`nym_sphinx::...::Recipient`). -/
structure Recipient where
  addr : Nat
deriving DecidableEq, Repr

/-- Websocket frame (`tokio_tungstenite::tungstenite::protocol::Message`).
Text carries the bytes produced by `str.into_bytes()`; the non-data frame
kinds hit the `_` arm of `parse_nym_message`. -/
inductive WsMessage where
  | text (bytes : List Nat)
  | binary (bytes : List Nat)
  | ping
  | pong
  | close
deriving DecidableEq, Repr

/-- `true` exactly on the frame kinds that fall into the `_` arm of
`parse_nym_message` (neither text nor binary). -/
def WsMessage.isOtherKind : WsMessage → Bool
  | .text _ => false
  | .binary _ => false
  | _ => true

/-- Payload of `ServerResponse::Received` (`ReconstructedMessage`): the
code only reads its `message` bytes. -/
structure ReconstructedMessage where
  message : List Nat
  senderTag : Option Nat
deriving DecidableEq, Repr

/-- `nym_websocket::responses::ServerResponse`: the variants matched in
`mixnet.rs`, with `other` standing for every remaining variant (all of
them reach only `_` arms). -/
inductive ServerResponse where
  | received (msg : ReconstructedMessage)
  | error (e : String)
  | selfAddress (r : Recipient)
  | other (tag : Nat)
deriving DecidableEq, Repr

/-- `true` on the response variants that are neither `SelfAddress` nor
`Error`: exactly the ones the handshake's `_ => continue` arm skips. -/
def ServerResponse.isOtherVariant : ServerResponse → Bool
  | .received _ => true
  | .other _ => true
  | .error _ => false
  | .selfAddress _ => false

/-- `nym_websocket::requests::ClientRequest`: the two variants the bridge
constructs. -/
inductive ClientRequest where
  | selfAddress
  | send (recipient : Recipient) (message : List Nat) (connectionId : Option Nat)
deriving DecidableEq, Repr

/-- `crate::error::Error`, reconstructed from the variants used in
`src/mixnet.rs`. -/
inductive Error where
  | websocketStreamError (e : String)
  | websocketStreamReadNone
  | nymMessageError (e : String)
  | unexpectedNymMessage
  | inboundSendError (e : String)
  | recvError
  | unknownNymMessage
deriving DecidableEq, Repr

/-- Connection identifier (`crate::message::ConnectionId`, shape taken
from the test module of `src/mixnet.rs`). -/
structure ConnectionId where
  id : Nat
deriving DecidableEq, Repr

/-- `crate::message::TransportMessage` (shape from the test module). -/
structure TransportMessage where
  id : ConnectionId
  message : List Nat
deriving DecidableEq, Repr

/-- `crate::message::Message` (application envelope; the variant used in
the test module of `src/mixnet.rs`). -/
inductive AppMessage where
  | transportMessage (t : TransportMessage)
deriving DecidableEq, Repr

/-- `crate::message::InboundMessage`: tuple struct wrapping the decoded
application message (the test reads `received_msg.0`). -/
structure InboundMessage where
  msg : AppMessage
deriving DecidableEq, Repr

/-- `crate::message::OutboundMessage` with fields `message` and
`recipient` as used in `check_outbound` and the test module. -/
structure OutboundMessage where
  message : AppMessage
  recipient : Recipient
deriving DecidableEq, Repr

/-- The external (de)serialization functions the bridge calls but does not
define: `ServerResponse::deserialize`, `ClientRequest::serialize`,
`crate::message::parse_message_data` and `Message::to_bytes`. Every
theorem below is parametric in these. -/
structure Codec where
  deser : List Nat → Except String ServerResponse
  ser : ClientRequest → List Nat
  pmd : List Nat → Except Error InboundMessage
  toBytes : AppMessage → List Nat

/-- State of one bridge instance as seen by the relay loop. -/
structure RelayState where
  /-- remaining results of `ws_stream.next()`; `[]` = stream ended -/
  stream : List (Except String WsMessage)
  /-- messages already delivered to the inbound channel, in order -/
  inbound : List InboundMessage
  /-- the caller dropped the inbound receiver -/
  inboundClosed : Bool
  /-- pending messages in the outbound channel, in order -/
  outboundQueue : List OutboundMessage
  /-- the caller dropped every outbound sender -/
  outboundClosed : Bool
  /-- frames written to the websocket sink, in order -/
  sink : List WsMessage
  /-- the environment makes `sink.send` fail -/
  sinkFails : Bool
  /-- per-iteration results the loop has reported via `debug!` -/
  log : List (Except Error Unit)
deriving DecidableEq, Repr

/-- `parse_nym_message` (src/mixnet.rs lines 159-168): text and binary
frames are deserialized (failure becomes `NymMessageError`), every other
frame kind is `UnknownNymMessage`. -/
def parse_nym_message (c : Codec) (msg : WsMessage) : Except Error ServerResponse :=
  match msg with
  | .text bytes =>
    match c.deser bytes with
    | .ok r => .ok r
    | .error e => .error (.nymMessageError e)
  | .binary bytes =>
    match c.deser bytes with
    | .ok r => .ok r
    | .error e => .error (.nymMessageError e)
  | _ => .error .unknownNymMessage

/-- `handle_inbound` (src/mixnet.rs lines 84-101): parse the frame, accept
only `Received`, deserialize the payload with `parse_message_data`, send
the result on the inbound channel. -/
def handle_inbound (c : Codec) (msg : WsMessage) (s : RelayState) :
    Except Error Unit × RelayState :=
  match parse_nym_message c msg with
  | .error e => (.error e, s)
  | .ok (.received msgBytes) =>
    match c.pmd msgBytes.message with
    | .error e => (.error e, s)
    | .ok data =>
      if s.inboundClosed then
        (.error (.inboundSendError "channel closed"), s)
      else
        (.ok (), { s with inbound := s.inbound ++ [data] })
  | .ok (.error e) => (.error (.nymMessageError e), s)
  | .ok _ => (.error .unexpectedNymMessage, s)

/-- `check_inbound` (src/mixnet.rs lines 69-82): await the next stream
item; `Some(Ok(msg))` goes to `handle_inbound`, `Some(Err(e))` becomes
`WebsocketStreamError`, `None` becomes `WebsocketStreamReadNone`. The
frame is consumed from the stream in either `Some` case. -/
def check_inbound (c : Codec) (s : RelayState) : Except Error Unit × RelayState :=
  match s.stream with
  | [] => (.error .websocketStreamReadNone, s)
  | (.error e) :: rest => (.error (.websocketStreamError e), { s with stream := rest })
  | (.ok msg) :: rest => handle_inbound c msg { s with stream := rest }

/-- `write_bytes` (src/mixnet.rs lines 113-134): build a
`ClientRequest::Send` with `connection_id: None`, serialize it and send it
as one binary frame; a sink failure becomes `WebsocketStreamError`. -/
def write_bytes (c : Codec) (recipient : Recipient) (message : List Nat)
    (s : RelayState) : Except Error Unit × RelayState :=
  let nymPacket := ClientRequest.send recipient message none
  if s.sinkFails then
    (.error (.websocketStreamError "write failed"), s)
  else
    (.ok (), { s with sink := s.sink ++ [WsMessage.binary (c.ser nymPacket)] })

/-- `check_outbound` (src/mixnet.rs lines 103-111): `recv()` yields the
next queued message (then `write_bytes` runs), yields `None` exactly when
the channel is closed and empty (then `RecvError`), and pends otherwise
(modelled as `none`: this future cannot win the race). -/
def check_outbound (c : Codec) (s : RelayState) :
    Option (Except Error Unit × RelayState) :=
  match s.outboundQueue with
  | message :: rest =>
    some (write_bytes c message.recipient (c.toBytes message.message)
      { s with outboundQueue := rest })
  | [] =>
    if s.outboundClosed then some (.error .recvError, s) else none

/-- Whether the relay loop keeps iterating after one body execution. The
Rust `loop` in `initialize_mixnet` (src/mixnet.rs lines 48-64) contains no
`break` or `return`, so the body built from it is constantly `cont`. -/
inductive LoopControl where
  | cont
  | stop
deriving DecidableEq, Repr

/-- One iteration of the relay loop (src/mixnet.rs lines 49-63): race
`check_inbound` against `check_outbound` (`inboundWon` says which future
resolved first), report the result via `debug!` (the log), and continue.
A pending outbound future cannot win, so that case leaves the state
unchanged. -/
def relay_loop_body (c : Codec) (inboundWon : Bool) (s : RelayState) :
    LoopControl × RelayState :=
  if inboundWon then
    let r := check_inbound c s
    (LoopControl.cont, { r.2 with log := r.2.log ++ [r.1] })
  else
    match check_outbound c s with
    | some r => (LoopControl.cont, { r.2 with log := r.2.log ++ [r.1] })
    | none => (LoopControl.cont, s)

/-- Run the relay loop over a list of race outcomes, stopping early if the
body ever says `stop`. -/
def relay_run (c : Codec) (choices : List Bool) (s : RelayState) : RelayState :=
  match choices with
  | [] => s
  | ch :: rest =>
    match relay_loop_body c ch s with
    | (.stop, s') => s'
    | (.cont, s') => relay_run c rest s'

/-- The read loop of `get_self_address` (src/mixnet.rs lines 147-156):
propagate stream errors and parse errors, return on `SelfAddress`, fail on
`Error`, skip (`continue`) every other variant; `RecvError` when the
stream ends first. -/
def get_self_address_loop (c : Codec) :
    List (Except String WsMessage) → Except Error Recipient
  | [] => .error .recvError
  | (.error e) :: _ => .error (.websocketStreamError e)
  | (.ok rawMessage) :: rest =>
    match parse_nym_message c rawMessage with
    | .error e => .error e
    | .ok (.selfAddress r) => .ok r
    | .ok (.error e) => .error (.nymMessageError e)
    | .ok _ => get_self_address_loop c rest

/-- `get_self_address` (src/mixnet.rs lines 136-157): serialize and send a
`SelfAddress` request as a binary frame (a send failure becomes
`WebsocketStreamError`), then run the read loop. Returns the result and
the frames written. -/
def get_self_address (c : Codec) (stream : List (Except String WsMessage))
    (sendFails : Bool) : Except Error Recipient × List WsMessage :=
  let selfAddressRequest := c.ser ClientRequest.selfAddress
  if sendFails then
    (.error (.websocketStreamError "send failed"), [])
  else
    (get_self_address_loop c stream, [WsMessage.binary selfAddressRequest])

/-- `true` when `handle_inbound` on this frame fails for a reason intrinsic
to the frame (malformed envelope, unknown frame kind, gateway `Error`
response, unexpected variant, or malformed application payload),
independently of the channel state. -/
def inbound_frame_error (c : Codec) (msg : WsMessage) : Bool :=
  match parse_nym_message c msg with
  | .error _ => true
  | .ok (.received msgBytes) =>
    match c.pmd msgBytes.message with
    | .ok _ => false
    | .error _ => true
  | .ok (.error _) => true
  | .ok (.selfAddress _) => true
  | .ok (.other _) => true

/-! ### Concrete fixtures for witnesses and counterexamples -/

/-- A concrete `Received` payload whose `message` bytes decode. -/
def mb0 : ReconstructedMessage := ⟨[7], none⟩

/-- A concrete `Received` payload whose `message` bytes fail to decode. -/
def mb1 : ReconstructedMessage := ⟨[9], none⟩

/-- The application message `c0.pmd` decodes `[7]` to. -/
def im0 : InboundMessage := ⟨.transportMessage ⟨⟨1⟩, [7]⟩⟩

/-- A concrete self address. -/
def r0 : Recipient := ⟨5⟩

/-- A concrete instantiation of the external codec functions:
`[0]` is a well-formed `Received` envelope, `[1]` a `SelfAddress` envelope,
`[2]` an `Error` envelope, `[3]` some other variant, `[4]` a `Received`
envelope whose application payload is malformed, and anything else is a
malformed envelope. -/
def c0 : Codec where
  deser := fun bytes =>
    if bytes = [0] then .ok (.received mb0)
    else if bytes = [1] then .ok (.selfAddress r0)
    else if bytes = [2] then .ok (.error "boom")
    else if bytes = [3] then .ok (.other 0)
    else if bytes = [4] then .ok (.received mb1)
    else .error "malformed"
  ser := fun _ => [8]
  pmd := fun bytes =>
    if bytes = [7] then .ok im0 else .error (.nymMessageError "bad payload")
  toBytes := fun _ => [7]

/-- State after the caller dropped both the inbound receiver and every
outbound sender. -/
def closedS : RelayState :=
  { stream := [], inbound := [], inboundClosed := true,
    outboundQueue := [], outboundClosed := true,
    sink := [], sinkFails := false, log := [] }

/-- State whose socket stream has ended while both channels are alive. -/
def endS : RelayState :=
  { stream := [], inbound := [], inboundClosed := false,
    outboundQueue := [], outboundClosed := false,
    sink := [], sinkFails := false, log := [] }

/-- Open state whose stream holds a malformed frame followed by a
well-formed `Received` frame. -/
def isoS : RelayState :=
  { stream := [Except.ok (WsMessage.binary [6]), Except.ok (WsMessage.binary [0])],
    inbound := [], inboundClosed := false,
    outboundQueue := [], outboundClosed := false,
    sink := [], sinkFails := false, log := [] }

/-- A concrete outbound message. -/
def om0 : OutboundMessage := ⟨.transportMessage ⟨⟨1⟩, [7]⟩, r0⟩

/-- Open state with one queued outbound message. -/
def outS : RelayState :=
  { stream := [], inbound := [], inboundClosed := false,
    outboundQueue := [om0], outboundClosed := false,
    sink := [], sinkFails := false, log := [] }

/-- Like `outS` but the sink fails. -/
def outFailS : RelayState :=
  { outS with sinkFails := true }

/-! ### Shared lemmas -/

/-- The loop body built from `initialize_mixnet`'s `loop` always says
continue: the source loop contains no `break`. -/
theorem relay_loop_body_cont (c : Codec) (ch : Bool) (s : RelayState) :
    (relay_loop_body c ch s).1 = LoopControl.cont := by
  unfold relay_loop_body
  split
  · rfl
  · split <;> rfl

/-- `check_inbound` consumes the head frame and hands it to
`handle_inbound`. -/
theorem check_inbound_cons_ok (c : Codec) (m : WsMessage)
    (rest : List (Except String WsMessage)) (s : RelayState)
    (h : s.stream = .ok m :: rest) :
    check_inbound c s = handle_inbound c m { s with stream := rest } := by
  unfold check_inbound
  rw [h]

/-- A frame that errors intrinsically makes `handle_inbound` return that
error with the state untouched. -/
theorem handle_inbound_frame_err (c : Codec) (m : WsMessage) (s : RelayState)
    (h : inbound_frame_error c m = true) :
    ∃ e, handle_inbound c m s = (.error e, s) := by
  unfold inbound_frame_error at h
  cases hp : parse_nym_message c m with
  | error e => exact ⟨e, by simp [handle_inbound, hp]⟩
  | ok resp =>
    rw [hp] at h
    cases resp with
    | received msgBytes =>
      cases hd : c.pmd msgBytes.message with
      | error e => exact ⟨e, by simp [handle_inbound, hp, hd]⟩
      | ok d => simp [hd] at h
    | error e => exact ⟨.nymMessageError e, by simp [handle_inbound, hp]⟩
    | selfAddress r => exact ⟨.unexpectedNymMessage, by simp [handle_inbound, hp]⟩
    | other t => exact ⟨.unexpectedNymMessage, by simp [handle_inbound, hp]⟩

/-- A well-decoded `Received` frame whose payload decodes is enqueued on
the open inbound channel. -/
theorem handle_inbound_received_ok (c : Codec) (m : WsMessage) (s : RelayState)
    (mb : ReconstructedMessage) (data : InboundMessage)
    (hm : parse_nym_message c m = .ok (.received mb))
    (hd : c.pmd mb.message = .ok data)
    (hopen : s.inboundClosed = false) :
    handle_inbound c m s = (.ok (), { s with inbound := s.inbound ++ [data] }) := by
  simp [handle_inbound, hm, hd, hopen]

/-- The handshake read loop skips a frame that decodes to a variant other
than `SelfAddress` and `Error`. -/
theorem get_self_address_loop_skip (c : Codec) (m : WsMessage)
    (resp : ServerResponse) (rest : List (Except String WsMessage))
    (hm : parse_nym_message c m = .ok resp)
    (hother : resp.isOtherVariant = true) :
    get_self_address_loop c (.ok m :: rest) = get_self_address_loop c rest := by
  cases resp with
  | received mb => simp [get_self_address_loop, hm]
  | other t => simp [get_self_address_loop, hm]
  | error e => simp [ServerResponse.isOtherVariant] at hother
  | selfAddress r => simp [ServerResponse.isOtherVariant] at hother

/-- If every frame of the stream decodes to a skipped variant, the
handshake read loop exhausts the stream and fails with `RecvError`. -/
theorem get_self_address_loop_all_other (c : Codec)
    (fs : List (Except String WsMessage))
    (h : ∀ x ∈ fs, ∃ m resp, x = Except.ok m ∧
      parse_nym_message c m = .ok resp ∧ resp.isOtherVariant = true) :
    get_self_address_loop c fs = .error .recvError := by
  induction fs with
  | nil => rfl
  | cons x rest ih =>
    obtain ⟨m, resp, hx, hm, hother⟩ := h x (List.mem_cons_self x rest)
    subst hx
    rw [get_self_address_loop_skip c m resp rest hm hother]
    exact ih fun y hy => h y (List.mem_cons_of_mem _ hy)

/-! ### Claim theorems -/

/-- C1: every per-frame relay-phase error (malformed envelope, malformed
application payload, gateway protocol error, unexpected response variant,
or socket write failure) only makes the loop body report that iteration's
error and continue: the body's control is always `cont`, a frame error
consumes exactly that frame and changes nothing but the log, and a
malformed frame followed by a well-formed `Received` frame still gets the
well-formed frame's payload enqueued to the inbound channel. -/
theorem C1_relay_error_isolation (c : Codec) (s : RelayState)
    (bad good : WsMessage) (mb : ReconstructedMessage) (data : InboundMessage)
    (rest : List (Except String WsMessage))
    (hstream : s.stream = .ok bad :: .ok good :: rest)
    (hbad : inbound_frame_error c bad = true)
    (hgood : parse_nym_message c good = .ok (.received mb))
    (hdata : c.pmd mb.message = .ok data)
    (hopen : s.inboundClosed = false) :
    (∀ ch s', (relay_loop_body c ch s').1 = LoopControl.cont) ∧
    (∃ e, relay_loop_body c true s =
      (.cont, { s with stream := .ok good :: rest, log := s.log ++ [.error e] })) ∧
    (relay_run c [true, true] s).inbound = s.inbound ++ [data] := by
  obtain ⟨e, he⟩ :=
    handle_inbound_frame_err c bad { s with stream := Except.ok good :: rest } hbad
  have hci : check_inbound c s = (.error e, { s with stream := Except.ok good :: rest }) := by
    rw [check_inbound_cons_ok c bad (Except.ok good :: rest) s hstream, he]
  have hb1 : relay_loop_body c true s =
      (.cont, { s with stream := Except.ok good :: rest, log := s.log ++ [Except.error e] }) := by
    simp [relay_loop_body, hci]
  have hci2 : check_inbound c { s with stream := Except.ok good :: rest, log := s.log ++ [Except.error e] } = (.ok (), { s with stream := rest, inbound := s.inbound ++ [data], log := s.log ++ [Except.error e] }) := by
    simp [check_inbound, handle_inbound, hgood, hdata, hopen]
  have hb2 : relay_loop_body c true { s with stream := Except.ok good :: rest, log := s.log ++ [Except.error e] } = (.cont, { s with stream := rest, inbound := s.inbound ++ [data], log := s.log ++ [Except.error e, Except.ok ()] }) := by
    simp [relay_loop_body, hci2]
  refine ⟨relay_loop_body_cont c, ⟨e, hb1⟩, ?_⟩
  simp [relay_run, hb1, hb2]

/-- C1 witness: in `isoS` a malformed binary frame precedes a well-formed
`Received` frame, and after two inbound iterations the decoded payload of
the second frame sits in the inbound channel. -/
theorem C1_relay_error_isolation_witness :
    isoS.stream = .ok (WsMessage.binary [6]) :: .ok (WsMessage.binary [0]) :: [] ∧
    (relay_run c0 [true, true] isoS).inbound = isoS.inbound ++ [im0] :=
  ⟨rfl, (C1_relay_error_isolation c0 isoS (WsMessage.binary [6]) (WsMessage.binary [0])
    mb0 im0 [] rfl rfl rfl rfl rfl).2.2⟩

/-- C2 counterexample: with both the inbound receiver and the outbound
sender dropped (`closedS`), the very next outbound attempt resolves with
`RecvError` — closure is detected — yet the loop body says `cont` and
three further iterations still run, each re-reporting `RecvError`; the
loop does not stop. -/
theorem C2_loop_never_stops_counterexample :
    check_outbound c0 closedS = some (Except.error Error.recvError, closedS) ∧
    (relay_loop_body c0 false closedS).1 = LoopControl.cont ∧
    relay_run c0 [false, false, false] closedS =
      { closedS with log := [Except.error Error.recvError, Except.error Error.recvError,
        Except.error Error.recvError] } := by
  decide

/-- C2 amended: after the caller drops both endpoints, the relay loop
detects the closure within one loop iteration on its next attempt to use
the affected channel (`check_outbound` resolves `RecvError` immediately;
delivering a decoded `Received` payload fails with `InboundSendError`),
but the loop does not stop: the body returns `cont` and only appends the
error to the log. -/
theorem C2_closure_detected_loop_continues (c : Codec) (s : RelayState)
    (hq : s.outboundQueue = []) (hc : s.outboundClosed = true)
    (hi : s.inboundClosed = true) :
    check_outbound c s = some (.error .recvError, s) ∧
    relay_loop_body c false s = (.cont, { s with log := s.log ++ [.error .recvError] }) ∧
    (∀ m mb data, parse_nym_message c m = .ok (.received mb) →
      c.pmd mb.message = .ok data →
      handle_inbound c m s = (.error (.inboundSendError "channel closed"), s)) := by
  have h1 : check_outbound c s = some (.error .recvError, s) := by
    simp [check_outbound, hq, hc]
  refine ⟨h1, by simp [relay_loop_body, h1], ?_⟩
  intro m mb data hm hd
  simp [handle_inbound, hm, hd, hi]

/-- C2 witness: the amended behaviour at the concrete closed state. -/
theorem C2_closure_detected_witness :
    check_outbound c0 closedS = some (Except.error Error.recvError, closedS) ∧
    relay_loop_body c0 false closedS =
      (LoopControl.cont, { closedS with log := closedS.log ++ [Except.error Error.recvError] }) ∧
    handle_inbound c0 (WsMessage.binary [0]) closedS =
      (Except.error (Error.inboundSendError "channel closed"), closedS) := by
  obtain ⟨h1, h2, h3⟩ := C2_closure_detected_loop_continues c0 closedS rfl rfl rfl
  exact ⟨h1, h2, h3 (WsMessage.binary [0]) mb0 im0 rfl rfl⟩

/-- C3: the handshake read loop silently discards every well-decoded
response whose variant is neither `SelfAddress` nor `Error` and keeps
reading; in particular a `Received` frame arriving before the
`SelfAddress` response does not stop the handshake from returning the
address of the later `SelfAddress` frame. -/
theorem C3_handshake_skip_tolerance (c : Codec) (f : WsMessage)
    (resp : ServerResponse) (rest : List (Except String WsMessage))
    (hf : parse_nym_message c f = .ok resp)
    (hother : resp.isOtherVariant = true) :
    get_self_address_loop c (.ok f :: rest) = get_self_address_loop c rest ∧
    (∀ g r rest2, rest = .ok g :: rest2 →
      parse_nym_message c g = .ok (.selfAddress r) →
      get_self_address_loop c (.ok f :: rest) = .ok r) := by
  have hskip := get_self_address_loop_skip c f resp rest hf hother
  refine ⟨hskip, ?_⟩
  intro g r rest2 hrest hg
  subst hrest
  rw [hskip]
  simp [get_self_address_loop, hg]

/-- C3 witness: a `Received` frame followed by a `SelfAddress` frame makes
the handshake return the later frame's address. -/
theorem C3_handshake_skip_tolerance_witness :
    get_self_address_loop c0
      [Except.ok (WsMessage.binary [0]), Except.ok (WsMessage.binary [1])] =
      Except.ok r0 :=
  (C3_handshake_skip_tolerance c0 (WsMessage.binary [0]) (ServerResponse.received mb0)
    [Except.ok (WsMessage.binary [1])] rfl rfl).2 (WsMessage.binary [1]) r0 [] rfl rfl

/-- C4 counterexample: when the socket closes before any `SelfAddress`
response, the handshake fails with `Error.recvError` — the very same
error variant `check_outbound` returns when the outbound channel is
closed — so the handshake stream-closed failure is not an error kind
distinct from the channel-closure kinds. -/
theorem C4_same_variant_counterexample :
    get_self_address_loop c0 [] = Except.error Error.recvError ∧
    (check_outbound c0 closedS).map Prod.fst = some (Except.error Error.recvError) := by
  decide

/-- C4 amended: the handshake fails with `NymMessageError(text)` (the
code's `GatewayProtocolError`) when an `Error(text)` response is observed,
and fails with `RecvError` when the socket closes before any `SelfAddress`
response arrives; `RecvError` is the same error variant the relay returns
for outbound-channel closure, not a distinct connection-level kind. -/
theorem C4_handshake_failures (c : Codec) (f : WsMessage) (text : String)
    (rest : List (Except String WsMessage))
    (hf : parse_nym_message c f = .ok (.error text)) :
    get_self_address_loop c (.ok f :: rest) = .error (.nymMessageError text) ∧
    (∀ fs, (∀ x ∈ fs, ∃ m resp, x = Except.ok m ∧
      parse_nym_message c m = .ok resp ∧ resp.isOtherVariant = true) →
      get_self_address_loop c fs = .error .recvError) ∧
    (∀ s : RelayState, s.outboundQueue = [] → s.outboundClosed = true →
      check_outbound c s = some (.error .recvError, s)) := by
  refine ⟨by simp [get_self_address_loop, hf], get_self_address_loop_all_other c, ?_⟩
  intro s hq hc
  simp [check_outbound, hq, hc]

/-- C4 witness: concrete `Error("boom")` frame and a stream holding only a
skipped `Received` frame. -/
theorem C4_handshake_failures_witness :
    get_self_address_loop c0 [Except.ok (WsMessage.binary [2])] =
      Except.error (Error.nymMessageError "boom") ∧
    get_self_address_loop c0 [Except.ok (WsMessage.binary [0])] =
      Except.error Error.recvError := by
  obtain ⟨h1, h2, _⟩ :=
    C4_handshake_failures c0 (WsMessage.binary [2]) "boom" [] rfl
  refine ⟨h1, h2 [Except.ok (WsMessage.binary [0])] ?_⟩
  intro x hx
  simp at hx
  exact ⟨WsMessage.binary [0], ServerResponse.received mb0, hx, rfl, rfl⟩

/-- C5: the codec accepts exactly binary and text frames: a successful
deserialization of either is returned as-is, a failed one becomes
`NymMessageError` (the code's `MalformedEnvelope`) carrying the detail,
every other frame kind yields `UnknownNymMessage`, and no other frame
kind can produce a success. -/
theorem C5_codec_closed_frame_match (c : Codec) :
    (∀ bytes resp, c.deser bytes = .ok resp →
      parse_nym_message c (.text bytes) = .ok resp ∧
      parse_nym_message c (.binary bytes) = .ok resp) ∧
    (∀ bytes e, c.deser bytes = .error e →
      parse_nym_message c (.text bytes) = .error (.nymMessageError e) ∧
      parse_nym_message c (.binary bytes) = .error (.nymMessageError e)) ∧
    (∀ m, m.isOtherKind = true → parse_nym_message c m = .error .unknownNymMessage) ∧
    (∀ m resp, parse_nym_message c m = .ok resp →
      (∃ b, m = .text b) ∨ (∃ b, m = .binary b)) := by
  refine ⟨fun bytes resp h => ⟨by simp [parse_nym_message, h], by simp [parse_nym_message, h]⟩,
    fun bytes e h => ⟨by simp [parse_nym_message, h], by simp [parse_nym_message, h]⟩,
    fun m hm => ?_, fun m resp h => ?_⟩
  · cases m with
    | text b => simp [WsMessage.isOtherKind] at hm
    | binary b => simp [WsMessage.isOtherKind] at hm
    | ping => rfl
    | pong => rfl
    | close => rfl
  · cases m with
    | text b => exact Or.inl ⟨b, rfl⟩
    | binary b => exact Or.inr ⟨b, rfl⟩
    | ping => simp [parse_nym_message] at h
    | pong => simp [parse_nym_message] at h
    | close => simp [parse_nym_message] at h

/-- C6: for every `Received(payload)` frame handled while the inbound
receiver is alive, the decoded message is enqueued exactly when
`parse_message_data` succeeds; on failure the error is returned for that
frame and nothing is enqueued; anything appended to the inbound channel
is a successfully decoded message, never an error value. -/
theorem C6_inbound_channel_wellformed (c : Codec) (s : RelayState)
    (m : WsMessage) (mb : ReconstructedMessage)
    (hm : parse_nym_message c m = .ok (.received mb))
    (hopen : s.inboundClosed = false) :
    (∀ data, c.pmd mb.message = .ok data →
      handle_inbound c m s = (.ok (), { s with inbound := s.inbound ++ [data] })) ∧
    (∀ e, c.pmd mb.message = .error e →
      handle_inbound c m s = (.error e, s)) ∧
    (∀ r s', handle_inbound c m s = (r, s') →
      s'.inbound = s.inbound ∨
      ∃ data, c.pmd mb.message = .ok data ∧ s'.inbound = s.inbound ++ [data]) := by
  refine ⟨fun data hd => handle_inbound_received_ok c m s mb data hm hd hopen,
    fun e he => by simp [handle_inbound, hm, he], fun r s' h => ?_⟩
  cases hd : c.pmd mb.message with
  | error e =>
    left
    have hh : handle_inbound c m s = (.error e, s) := by simp [handle_inbound, hm, hd]
    rw [hh] at h
    injection h with h1 h2
    rw [← h2]
  | ok data =>
    right
    refine ⟨data, rfl, ?_⟩
    rw [handle_inbound_received_ok c m s mb data hm hd hopen] at h
    injection h with h1 h2
    rw [← h2]

/-- C6 witness: a well-formed and a malformed `Received` payload at the
open state `endS`. -/
theorem C6_inbound_channel_wellformed_witness :
    handle_inbound c0 (WsMessage.binary [0]) endS =
      (Except.ok (), { endS with inbound := endS.inbound ++ [im0] }) ∧
    handle_inbound c0 (WsMessage.binary [4]) endS =
      (Except.error (Error.nymMessageError "bad payload"), endS) :=
  ⟨(C6_inbound_channel_wellformed c0 endS (WsMessage.binary [0]) mb0 rfl rfl).1 im0 rfl,
    (C6_inbound_channel_wellformed c0 endS (WsMessage.binary [4]) mb1 rfl rfl).2.1
      (Error.nymMessageError "bad payload") rfl⟩

/-- C7: for every message dequeued from the outbound channel the relay
writes exactly one binary frame: the serialized `Send` request whose
recipient is the message's `recipient` and whose message field is the
serialized payload bytes; a sink failure yields `WebsocketStreamError`
(the code's `GatewayWriteError`) for that message only — the message is
consumed, nothing is written, and the loop continues. -/
theorem C7_outbound_send_encoding (c : Codec) (s : RelayState)
    (m : OutboundMessage) (rest : List OutboundMessage)
    (hq : s.outboundQueue = m :: rest) :
    (s.sinkFails = false →
      check_outbound c s = some (.ok (), { s with outboundQueue := rest, sink := s.sink ++ [WsMessage.binary (c.ser (.send m.recipient (c.toBytes m.message) none))] })) ∧
    (s.sinkFails = true →
      check_outbound c s = some (.error (.websocketStreamError "write failed"),
        { s with outboundQueue := rest }) ∧
      (relay_loop_body c false s).1 = .cont) := by
  constructor
  · intro hok
    simp [check_outbound, write_bytes, hq, hok]
  · intro hfail
    exact ⟨by simp [check_outbound, write_bytes, hq, hfail],
      relay_loop_body_cont c false s⟩

/-- C7 witness: the concrete queued message of `outS` is written as one
binary `Send` frame, and the same message at the failing sink `outFailS`
yields the write error with nothing written. -/
theorem C7_outbound_send_encoding_witness :
    check_outbound c0 outS = some (Except.ok (), { outS with outboundQueue := [], sink := outS.sink ++ [WsMessage.binary (c0.ser (.send om0.recipient (c0.toBytes om0.message) none))] }) ∧
    check_outbound c0 outFailS = some (Except.error (Error.websocketStreamError "write failed"),
      { outFailS with outboundQueue := [] }) :=
  ⟨(C7_outbound_send_encoding c0 outS om0 [] rfl).1 rfl,
    ((C7_outbound_send_encoding c0 outFailS om0 [] rfl).2 rfl).1⟩

/-- C8 counterexample: with the socket stream ended (`endS`), the relay
reports `WebsocketStreamReadNone` (the code's `ConnectionClosed`), but the
loop body says `cont` and further iterations keep running and keep
re-reporting the same error; the relay loop does not stop. -/
theorem C8_stream_end_counterexample :
    check_inbound c0 endS = (Except.error Error.websocketStreamReadNone, endS) ∧
    (relay_loop_body c0 true endS).1 = LoopControl.cont ∧
    relay_run c0 [true, true] endS = { endS with log := [Except.error Error.websocketStreamReadNone, Except.error Error.websocketStreamReadNone] } := by
  decide

/-- C8 amended: when the socket stream yields no more frames, every
inbound attempt reports `WebsocketStreamReadNone` (the code's
`ConnectionClosed`) and no reconnection is ever attempted (the stream
stays ended and nothing is written to the socket), but the relay loop does
not stop: the body returns `cont` and only appends the error to the
log. -/
theorem C8_stream_end_reported_loop_continues (c : Codec) (s : RelayState)
    (hs : s.stream = []) :
    check_inbound c s = (.error .websocketStreamReadNone, s) ∧
    relay_loop_body c true s = (.cont, { s with log := s.log ++ [.error .websocketStreamReadNone] }) ∧
    (relay_loop_body c true s).2.stream = [] ∧
    (relay_loop_body c true s).2.sink = s.sink := by
  have h1 : check_inbound c s = (.error .websocketStreamReadNone, s) := by
    simp [check_inbound, hs]
  have h2 : relay_loop_body c true s = (.cont, { s with log := s.log ++ [.error .websocketStreamReadNone] }) := by
    simp [relay_loop_body, h1]
  exact ⟨h1, h2, by rw [h2]; exact hs, by rw [h2]⟩

/-- C8 witness: the amended behaviour at the concrete ended-stream
state. -/
theorem C8_stream_end_reported_witness :
    check_inbound c0 endS = (Except.error Error.websocketStreamReadNone, endS) ∧
    relay_loop_body c0 true endS = (LoopControl.cont, { endS with log := endS.log ++ [Except.error Error.websocketStreamReadNone] }) :=
  ⟨(C8_stream_end_reported_loop_continues c0 endS rfl).1,
    (C8_stream_end_reported_loop_continues c0 endS rfl).2.1⟩

/-- C9: the handshake skips only well-decoded non-matching variants — a
stream-level error aborts it immediately with `WebsocketStreamError`, and
a frame whose payload fails envelope decoding (malformed envelope or
unknown frame kind) aborts it immediately with that decode error,
whatever frames follow. -/
theorem C9_handshake_aborts_on_malformed (c : Codec)
    (rest : List (Except String WsMessage)) :
    (∀ e, get_self_address_loop c (.error e :: rest) = .error (.websocketStreamError e)) ∧
    (∀ m e, parse_nym_message c m = .error e →
      get_self_address_loop c (.ok m :: rest) = .error e) := by
  refine ⟨fun e => by simp [get_self_address_loop], fun m e hm => by simp [get_self_address_loop, hm]⟩

/-- C9 witness: a stream-level error and a malformed-envelope frame each
abort the handshake even though a valid `SelfAddress` frame follows. -/
theorem C9_handshake_aborts_witness :
    get_self_address_loop c0 [Except.error "io", Except.ok (WsMessage.binary [1])] =
      Except.error (Error.websocketStreamError "io") ∧
    get_self_address_loop c0 [Except.ok (WsMessage.binary [6]), Except.ok (WsMessage.binary [1])] =
      Except.error (Error.nymMessageError "malformed") ∧
    get_self_address_loop c0 [Except.ok WsMessage.ping, Except.ok (WsMessage.binary [1])] =
      Except.error Error.unknownNymMessage :=
  ⟨(C9_handshake_aborts_on_malformed c0 [Except.ok (WsMessage.binary [1])]).1 "io",
    (C9_handshake_aborts_on_malformed c0 [Except.ok (WsMessage.binary [1])]).2
      (WsMessage.binary [6]) (Error.nymMessageError "malformed") rfl,
    (C9_handshake_aborts_on_malformed c0 [Except.ok (WsMessage.binary [1])]).2
      WsMessage.ping Error.unknownNymMessage rfl⟩

/-- C10: every frame `check_outbound` appends to the socket sink is a
binary frame carrying a serialized `Send` request whose `connection_id` is
`None`, whatever the outbound message's content: `write_bytes` hardcodes
`connection_id: None`. -/
theorem C10_connection_id_always_none (c : Codec) (s : RelayState)
    (r : Except Error Unit) (s' : RelayState)
    (h : check_outbound c s = some (r, s')) :
    ∃ tail, s'.sink = s.sink ++ tail ∧
      ∀ f ∈ tail, ∃ rec msg, f = WsMessage.binary (c.ser (.send rec msg none)) := by
  cases hq : s.outboundQueue with
  | nil =>
    cases hc : s.outboundClosed with
    | false => simp [check_outbound, hq, hc] at h
    | true =>
      have hco : check_outbound c s = some (.error .recvError, s) := by
        simp [check_outbound, hq, hc]
      rw [hco] at h
      injection h with h1
      injection h1 with hr hs'
      refine ⟨[], ?_, by simp⟩
      rw [← hs']
      simp
  | cons m rest =>
    cases hf : s.sinkFails with
    | true =>
      have hco : check_outbound c s = some (.error (.websocketStreamError "write failed"), { s with outboundQueue := rest }) := by
        simp [check_outbound, write_bytes, hq, hf]
      rw [hco] at h
      injection h with h1
      injection h1 with hr hs'
      refine ⟨[], ?_, by simp⟩
      rw [← hs']
      simp
    | false =>
      have hco : check_outbound c s = some (.ok (), { s with outboundQueue := rest, sink := s.sink ++ [WsMessage.binary (c.ser (.send m.recipient (c.toBytes m.message) none))] }) := by
        simp [check_outbound, write_bytes, hq, hf]
      rw [hco] at h
      injection h with h1
      injection h1 with hr hs'
      refine ⟨[WsMessage.binary (c.ser (.send m.recipient (c.toBytes m.message) none))], ?_, ?_⟩
      · rw [← hs']
      · intro f hfm
        simp at hfm
        exact ⟨m.recipient, c.toBytes m.message, hfm⟩

/-- State of `outS` after its one queued message has been written. -/
def outSAfter : RelayState := { outS with outboundQueue := [], sink := [WsMessage.binary [8]] }

/-- C10 witness: the concrete write performed from `outS` only appends
binary `Send` frames with `connection_id = None`. -/
theorem C10_connection_id_witness :
    ∃ tail, outSAfter.sink = outS.sink ++ tail ∧
      ∀ f ∈ tail, ∃ rec msg, f = WsMessage.binary (c0.ser (.send rec msg none)) :=
  C10_connection_id_always_none c0 outS (.ok ()) outSAfter rfl
